import Mathlib

/-!
Shallow embedding of the smart-parking-system repository
(`parking_system.py`, `src/parking_request.py`, `src/parking_slot.py`,
`src/zone.py`, `src/parking_area.py`, `src/rollback_manager.py`, and the
allocation engine).

Modelling conventions:
* Python objects are mutable and shared by reference.  Slots and requests are
  therefore modelled as heap entries keyed by their identity strings
  (`slot_id`, `request_id`); areas, requests and rollback records hold these
  keys where the Python holds object references.  Mutating "through a
  reference" becomes an update of the keyed entry.
* Python `datetime.now()` is modelled by an explicit `now : Nat` argument.
* Python `raise ValueError(...)` is modelled by `Except PyError`, where each
  `PyError` constructor carries the data interpolated into the Python message.
* Python `Dict[str, Zone]` is modelled by an association list with
  first-match lookup.
-/

namespace SmartParking

/-- RequestState mirrors the five-value `RequestState` enum of
`src/parking_request.py`. -/
inductive RequestState where
  | REQUESTED
  | ALLOCATED
  | OCCUPIED
  | RELEASED
  | CANCELLED
deriving DecidableEq

/-- PyError enumerates the `ValueError`s raised by the repository, each
constructor carrying the data that the corresponding Python message
interpolates.  `missingSlot` and `missingRequest` are artifacts of the keyed
heap (a Python object reference cannot dangle, so they are unreachable under
the well-formed states used below). -/
inductive PyError where
  | invalidTransition (source target : RequestState)
  | invalidState (request_id : String) (actual : RequestState)
  | slotAlreadyOccupied (slot_id : String)
  | invalidCount
  | insufficientHistory (k : Int) (depth : Nat)
  | missingSlot (slot_id : String)
  | missingRequest (request_id : String)
deriving DecidableEq

/-- ParkingSlot mirrors the fields set by `ParkingSlot.__init__` in
`src/parking_slot.py`; `current_vehicle` holds the occupying vehicle's
identity. -/
structure ParkingSlot where
  slot_id : String
  zone_id : String
  is_available : Bool
  current_vehicle : Option String
deriving DecidableEq

/-- ParkingSlot.occupy mirrors `ParkingSlot.occupy`: it raises when the slot
is not available, otherwise marks it occupied by the vehicle. -/
def ParkingSlot.occupy (s : ParkingSlot) (vehicle : String) : Except PyError ParkingSlot :=
  if s.is_available = false then
    .error (.slotAlreadyOccupied s.slot_id)
  else
    .ok { s with is_available := false, current_vehicle := some vehicle }

/-- ParkingSlot.release mirrors `ParkingSlot.release`: unconditionally mark
the slot available and clear the occupant. -/
def ParkingSlot.release (s : ParkingSlot) : ParkingSlot :=
  { s with is_available := true, current_vehicle := none }

/-- findSlot resolves a slot reference (its `slot_id`) in the slot heap;
this is the embedding of following a Python object reference. -/
def findSlot (slots : List ParkingSlot) (sid : String) : Option ParkingSlot :=
  slots.find? (fun s => s.slot_id == sid)

/-- updateSlot applies `f` to the heap entries carrying the given `slot_id`;
this is the embedding of mutating a slot through a Python reference. -/
def updateSlot (slots : List ParkingSlot) (sid : String) (f : ParkingSlot → ParkingSlot) :
    List ParkingSlot :=
  slots.map (fun s => if s.slot_id == sid then f s else s)

/-- slotAvail reads `slot.is_available` through a slot reference (a dangling
reference, impossible in Python, reads as unavailable). -/
def slotAvail (slots : List ParkingSlot) (sid : String) : Bool :=
  match findSlot slots sid with
  | some s => s.is_available
  | none => false

/-- ParkingArea mirrors `src/parking_area.py`; `slots` holds references
(slot ids) into the slot heap, in insertion order. -/
structure ParkingArea where
  area_id : String
  zone_id : String
  slots : List String
deriving DecidableEq

/-- Zone mirrors `src/zone.py`: ordered parking areas and an adjacency list
of zone ids in insertion order. -/
structure Zone where
  zone_id : String
  zone_name : String
  parking_areas : List ParkingArea
  adjacent_zones : List String
deriving DecidableEq

/-- Zone.get_all_slots mirrors `Zone.get_all_slots`: concatenate the slot
lists of the areas in area order. -/
def Zone.get_all_slots (z : Zone) : List String :=
  z.parking_areas.foldl (fun acc area => acc ++ area.slots) []

/-- Zone.get_available_slots mirrors `Zone.get_available_slots`: filter the
zone's slots by availability (read through the heap). -/
def Zone.get_available_slots (z : Zone) (slots : List ParkingSlot) : List String :=
  z.get_all_slots.filter (slotAvail slots)

/-- ParkingRequest mirrors the fields set by `ParkingRequest.__init__` in
`src/parking_request.py`; `allocated_slot` is a slot reference (id). -/
structure ParkingRequest where
  request_id : String
  vehicle : String
  requested_zone : String
  request_time : Nat
  state : RequestState
  allocated_slot : Option String
  start_time : Option Nat
  end_time : Option Nat
  is_cross_zone : Bool
deriving DecidableEq

/-- VALID_TRANSITIONS mirrors the `ParkingRequest.VALID_TRANSITIONS` table
(`src/parking_request.py`, lines 22-28). -/
def VALID_TRANSITIONS : RequestState → List RequestState
  | .REQUESTED => [.ALLOCATED, .CANCELLED]
  | .ALLOCATED => [.OCCUPIED, .CANCELLED]
  | .OCCUPIED => [.RELEASED]
  | .RELEASED => []
  | .CANCELLED => []

/-- ParkingRequest.transition_to mirrors `ParkingRequest.transition_to`:
validate the target against the table (raising an invalid-transition error
carrying source and target otherwise), set the state, then stamp
`start_time` on entering OCCUPIED and `end_time` on entering RELEASED. -/
def ParkingRequest.transition_to (req : ParkingRequest) (new_state : RequestState)
    (now : Nat) : Except PyError ParkingRequest :=
  if new_state ∈ VALID_TRANSITIONS req.state then
    let req1 := { req with state := new_state }
    .ok (if new_state = .OCCUPIED then { req1 with start_time := some now }
         else if new_state = .RELEASED then { req1 with end_time := some now }
         else req1)
  else
    .error (.invalidTransition req.state new_state)

/-- findRequest resolves a request reference (its `request_id`) in a request
heap / history list, mirroring a linear scan by identity. -/
def findRequest (reqs : List ParkingRequest) (rid : String) : Option ParkingRequest :=
  reqs.find? (fun r => r.request_id == rid)

/-- updateRequest applies `f` to the entries carrying the given
`request_id`; this is the embedding of mutating a request through a Python
reference. -/
def updateRequest (reqs : List ParkingRequest) (rid : String)
    (f : ParkingRequest → ParkingRequest) : List ParkingRequest :=
  reqs.map (fun r => if r.request_id == rid then f r else r)

/-- assocLookup is first-match association-list lookup, the embedding of
Python `dict` indexing / `in` tests for the zone directory. -/
def assocLookup {α : Type} (k : String) : List (String × α) → Option α
  | [] => none
  | (k2, v) :: rest => if k2 == k then some v else assocLookup k rest

namespace AllocationEngine

/-- AllocationEngine.find_slot_in_zone mirrors
`AllocationEngine._find_slot_in_zone`: the first available slot of the zone,
or none. -/
def find_slot_in_zone (slots : List ParkingSlot) (z : Zone) : Option String :=
  (z.get_available_slots slots).head?

/-- AllocationEngine.scan_adjacent is the `for adjacent_zone_id in
origin_zone.adjacent_zones` loop of
`AllocationEngine._find_slot_in_adjacent_zones`, written as recursion on the
remaining adjacency ids: ids absent from the directory are skipped, and the
first available slot of an adjacent zone is returned. -/
def scan_adjacent (slots : List ParkingSlot) (all_zones : List (String × Zone)) :
    List String → Option String
  | [] => none
  | zid :: rest =>
    match assocLookup zid all_zones with
    | some adjacent_zone =>
      match find_slot_in_zone slots adjacent_zone with
      | some sid => some sid
      | none => scan_adjacent slots all_zones rest
    | none => scan_adjacent slots all_zones rest

/-- AllocationEngine.find_slot_in_adjacent_zones mirrors
`AllocationEngine._find_slot_in_adjacent_zones`. -/
def find_slot_in_adjacent_zones (slots : List ParkingSlot) (origin_zone : Zone)
    (all_zones : List (String × Zone)) : Option String :=
  scan_adjacent slots all_zones origin_zone.adjacent_zones

/-- AllocationEngine.allocate_parking mirrors
`AllocationEngine.allocate_parking`: none when the requested zone is absent;
otherwise the first available slot of that zone tagged `false`; otherwise
the adjacent-zone scan tagged `true`; otherwise none.  The function reads
state and returns only the result, mirroring that the Python method performs
no mutation. -/
def allocate_parking (request : ParkingRequest) (zones : List (String × Zone))
    (slots : List ParkingSlot) : Option (String × Bool) :=
  match assocLookup request.requested_zone zones with
  | none => none
  | some zone =>
    match find_slot_in_zone slots zone with
    | some sid => some (sid, false)
    | none =>
      match find_slot_in_adjacent_zones slots zone zones with
      | some sid => some (sid, true)
      | none => none

end AllocationEngine

/-- RollbackRecord mirrors the `operation` dict built by
`RollbackManager.record_allocation`: the Python dict's `'request'` object
reference and `'request_id'` string coincide in the keyed model, and the
constant `'type': 'ALLOCATION'` field is elided. -/
structure RollbackRecord where
  request_id : String
  slot_id : String
  previous_state : RequestState
  timestamp : Nat
deriving DecidableEq

/-- RollbackManager mirrors `RollbackManager.__init__`: an operation stack
(oldest at index 0, top at the end) and a maximum stack size. -/
structure RollbackManager where
  operation_stack : List RollbackRecord
  max_stack_size : Nat
deriving DecidableEq

/-- RollbackManager.record_allocation mirrors
`RollbackManager.record_allocation`: append a record snapshotting
`request.state` at call time, then evict the oldest entry (`pop(0)`) when
the stack exceeds `max_stack_size`. -/
def RollbackManager.record_allocation (m : RollbackManager) (request : ParkingRequest)
    (slot_id : String) (now : Nat) : RollbackManager :=
  let operation : RollbackRecord :=
    { request_id := request.request_id
      slot_id := slot_id
      previous_state := request.state
      timestamp := now }
  let stack1 := m.operation_stack ++ [operation]
  let stack2 := if stack1.length > m.max_stack_size then stack1.drop 1 else stack1
  { m with operation_stack := stack2 }

/-- rollbackRestore is the per-record request mutation of
`RollbackManager.rollback_last_k`: force-set `state` to the record's
`previous_state`, clear `allocated_slot`, and clear `start_time` when the
restored state is REQUESTED. -/
def rollbackRestore (op : RollbackRecord) (req : ParkingRequest) : ParkingRequest :=
  let req1 := { req with state := op.previous_state, allocated_slot := none }
  if req1.state = .REQUESTED then { req1 with start_time := none } else req1

/-- RollbackStep carries the mutable state threaded through the
`for _ in range(k)` loop of `RollbackManager.rollback_last_k`: the
accumulated rolled-back records, the slot heap, the request heap, and the
remaining operation stack. -/
structure RollbackStep where
  rolled_back : List RollbackRecord
  slots : List ParkingSlot
  requests : List ParkingRequest
  stack : List RollbackRecord
deriving DecidableEq

/-- rollbackLoop is the `for _ in range(k)` loop of
`RollbackManager.rollback_last_k`: pop the top record, release its slot,
restore its request, and append the record to the result list.  The empty
stack case is unreachable under the guard `k <= len(stack)`. -/
def rollbackLoop : Nat → RollbackStep → RollbackStep
  | 0, st => st
  | n + 1, st =>
    match st.stack.getLast? with
    | none => st
    | some operation =>
      rollbackLoop n
        { rolled_back := st.rolled_back ++ [operation]
          slots := updateSlot st.slots operation.slot_id ParkingSlot.release
          requests := updateRequest st.requests operation.request_id (rollbackRestore operation)
          stack := st.stack.dropLast }

/-- RollbackManager.rollback_last_k mirrors `RollbackManager.rollback_last_k`
acting on the slot and request heaps: raise for `k <= 0`, raise when `k`
exceeds the stack depth, otherwise run the pop loop `k` times.  The
resulting `RollbackStep.stack` is the manager's remaining operation stack. -/
def RollbackManager.rollback_last_k (k : Int) (slots : List ParkingSlot)
    (reqs : List ParkingRequest) (m : RollbackManager) : Except PyError RollbackStep :=
  if k ≤ 0 then
    .error .invalidCount
  else if k > (m.operation_stack.length : Int) then
    .error (.insufficientHistory k m.operation_stack.length)
  else
    .ok (rollbackLoop k.toNat
      { rolled_back := [], slots := slots, requests := reqs, stack := m.operation_stack })

/-- ParkingSystem mirrors the state set up by `ParkingSystem.__init__`
(`parking_system.py`): the zone directory, the rollback manager
(`max_stack_size=100`), the request history, and the request counter.  The
`slots` field is the slot heap of the keyed model (in Python the slot
objects live inside the areas and are shared by reference); the stateless
`allocation_engine` needs no field. -/
structure ParkingSystem where
  zones : List (String × Zone)
  slots : List ParkingSlot
  rollback_manager : RollbackManager
  request_history : List ParkingRequest
  request_counter : Nat
deriving DecidableEq

/-- ParkingSystem.find_request mirrors `ParkingSystem._find_request`: scan
the request history for the first request with the given id. -/
def ParkingSystem.find_request (sys : ParkingSystem) (request_id : String) :
    Option ParkingRequest :=
  findRequest sys.request_history request_id

/-- process_request_core is the body of `ParkingSystem.process_request`
acting on the request value and the shared heaps: require state REQUESTED
(raising otherwise), run the allocator, return failure on no slot, and on
success occupy the slot, set `allocated_slot` and `is_cross_zone`,
transition to ALLOCATED, and only then record the allocation — so the
recorded snapshot sees the already-transitioned request.  The `missingSlot`
branch and the occupy/transition error propagations are unreachable when
the allocator's answer is drawn from the heap, as returned slots are
present and available and REQUESTED → ALLOCATED is a table edge. -/
def ParkingSystem.process_request_core (request : ParkingRequest)
    (zones : List (String × Zone)) (slots : List ParkingSlot) (m : RollbackManager)
    (now : Nat) :
    Except PyError (Bool × ParkingRequest × List ParkingSlot × RollbackManager) :=
  if request.state ≠ .REQUESTED then
    .error (.invalidState request.request_id request.state)
  else
    match AllocationEngine.allocate_parking request zones slots with
    | none => .ok (false, request, slots, m)
    | some (slot_id, is_cross_zone) =>
      match findSlot slots slot_id with
      | none => .error (.missingSlot slot_id)
      | some slot =>
        match slot.occupy request.vehicle with
        | .error e => .error e
        | .ok slot2 =>
          let slots2 := updateSlot slots slot_id (fun _ => slot2)
          let request2 := { request with
            allocated_slot := some slot_id, is_cross_zone := is_cross_zone }
          match request2.transition_to .ALLOCATED now with
          | .error e => .error e
          | .ok request3 =>
            .ok (true, request3, slots2, m.record_allocation request3 slot_id now)

/-- ParkingSystem.process_request mirrors `ParkingSystem.process_request` at
the system level: the Python method receives the request object itself,
which the orchestrator only ever draws from its history, so the keyed model
resolves the id in the history first (`missingRequest` is the unreachable
dangling-reference artifact) and writes the mutated request back. -/
def ParkingSystem.process_request (sys : ParkingSystem) (request_id : String)
    (now : Nat) : Except PyError (ParkingSystem × Bool) :=
  match sys.find_request request_id with
  | none => .error (.missingRequest request_id)
  | some request =>
    match ParkingSystem.process_request_core request sys.zones sys.slots
        sys.rollback_manager now with
    | .error e => .error e
    | .ok (ok, request2, slots2, m2) =>
      .ok ({ sys with
        slots := slots2
        rollback_manager := m2
        request_history := updateRequest sys.request_history request_id (fun _ => request2) },
        ok)

/-- ParkingSystem.occupy_parking mirrors `ParkingSystem.occupy_parking`:
unknown id returns False; a request not in ALLOCATED state raises; otherwise
transition to OCCUPIED and return True. -/
def ParkingSystem.occupy_parking (sys : ParkingSystem) (request_id : String)
    (now : Nat) : Except PyError (ParkingSystem × Bool) :=
  match sys.find_request request_id with
  | none => .ok (sys, false)
  | some request =>
    if request.state ≠ .ALLOCATED then
      .error (.invalidState request_id request.state)
    else
      match request.transition_to .OCCUPIED now with
      | .error e => .error e
      | .ok request2 =>
        .ok ({ sys with
          request_history := updateRequest sys.request_history request_id (fun _ => request2) },
          true)

/-- ParkingSystem.release_parking mirrors `ParkingSystem.release_parking`:
unknown id returns False; a request not in OCCUPIED state raises; otherwise
release the allocated slot (when present) and transition to RELEASED.  The
transition error propagation is unreachable (OCCUPIED → RELEASED is a table
edge). -/
def ParkingSystem.release_parking (sys : ParkingSystem) (request_id : String)
    (now : Nat) : Except PyError (ParkingSystem × Bool) :=
  match sys.find_request request_id with
  | none => .ok (sys, false)
  | some request =>
    if request.state ≠ .OCCUPIED then
      .error (.invalidState request_id request.state)
    else
      let slots2 := match request.allocated_slot with
        | some sid => updateSlot sys.slots sid ParkingSlot.release
        | none => sys.slots
      match request.transition_to .RELEASED now with
      | .error e => .error e
      | .ok request2 =>
        .ok ({ sys with
          slots := slots2
          request_history := updateRequest sys.request_history request_id (fun _ => request2) },
          true)

/-- ParkingSystem.cancel_request mirrors `ParkingSystem.cancel_request`:
unknown id returns False; a request outside {REQUESTED, ALLOCATED} raises;
an ALLOCATED request's slot (when present) is released; then transition to
CANCELLED.  The transition error propagation is unreachable (both permitted
origins have a CANCELLED edge). -/
def ParkingSystem.cancel_request (sys : ParkingSystem) (request_id : String)
    (now : Nat) : Except PyError (ParkingSystem × Bool) :=
  match sys.find_request request_id with
  | none => .ok (sys, false)
  | some request =>
    if request.state ∉ [RequestState.REQUESTED, RequestState.ALLOCATED] then
      .error (.invalidState request_id request.state)
    else
      let slots2 :=
        if request.state = .ALLOCATED then
          match request.allocated_slot with
          | some sid => updateSlot sys.slots sid ParkingSlot.release
          | none => sys.slots
        else sys.slots
      match request.transition_to .CANCELLED now with
      | .error e => .error e
      | .ok request2 =>
        .ok ({ sys with
          slots := slots2
          request_history := updateRequest sys.request_history request_id (fun _ => request2) },
          true)

/-- ParkingSystem.rollback_last_allocations mirrors
`ParkingSystem.rollback_last_allocations`: delegate to the rollback manager
and return the rolled-back request ids. -/
def ParkingSystem.rollback_last_allocations (sys : ParkingSystem) (k : Int) :
    Except PyError (List String × ParkingSystem) :=
  match RollbackManager.rollback_last_k k sys.slots sys.request_history
      sys.rollback_manager with
  | .error e => .error e
  | .ok st =>
    .ok (st.rolled_back.map RollbackRecord.request_id,
      { sys with
        slots := st.slots
        request_history := st.requests
        rollback_manager := { sys.rollback_manager with operation_stack := st.stack } })

/-! Concrete states used by witnesses and evaluations. -/

/-- reqEx is a freshly created request (state REQUESTED) for zone Z1. -/
def reqEx : ParkingRequest :=
  { request_id := "R1", vehicle := "V1", requested_zone := "Z1", request_time := 0
    state := .REQUESTED, allocated_slot := none, start_time := none, end_time := none
    is_cross_zone := false }

/-- slotOccEx is a slot currently occupied by vehicle V1. -/
def slotOccEx : ParkingSlot :=
  { slot_id := "S9", zone_id := "Z9", is_available := false, current_vehicle := some "V1" }

/-- emptySys is a freshly initialized parking system with no zones. -/
def emptySys : ParkingSystem :=
  { zones := [], slots := [], rollback_manager := { operation_stack := [], max_stack_size := 100 }
    request_history := [], request_counter := 0 }

/-- sys9 is a system whose history holds the single request `reqEx`
(state REQUESTED) and no zones. -/
def sys9 : ParkingSystem :=
  { emptySys with request_history := [reqEx], request_counter := 1 }

/-! Theorems for the claims. -/

/-- C3: `transition_to` succeeds and sets the request's state exactly on the
edges of the fixed `VALID_TRANSITIONS` table (Requested → Allocated or
Cancelled; Allocated → Occupied or Cancelled; Occupied → Released; Released
and Cancelled terminal); every other pair yields the invalid-transition
error carrying the attempted source and target states.  In this functional
embedding an error returns no request value, which is how the Python's
raise-before-assignment leaves the request's state unchanged. -/
theorem transition_to_follows_table (req : ParkingRequest) (target : RequestState)
    (now : Nat) :
    (target ∈ VALID_TRANSITIONS req.state →
      ∃ req2, req.transition_to target now = .ok req2 ∧ req2.state = target) ∧
    (target ∉ VALID_TRANSITIONS req.state →
      req.transition_to target now = .error (.invalidTransition req.state target)) := by
  constructor
  · intro h
    unfold ParkingRequest.transition_to
    rw [if_pos h]
    refine ⟨_, rfl, ?_⟩
    split
    · rfl
    · split <;> rfl
  · intro h
    unfold ParkingRequest.transition_to
    rw [if_neg h]

/-- Witness for C3: the concrete request `reqEx` (state REQUESTED) moves to
ALLOCATED, and its transition to RELEASED is rejected with the source and
target in the error. -/
theorem transition_to_follows_table_witness :
    (∃ req2, reqEx.transition_to .ALLOCATED 0 = .ok req2 ∧ req2.state = .ALLOCATED) ∧
    reqEx.transition_to .RELEASED 0 =
      .error (.invalidTransition .REQUESTED .RELEASED) := by
  constructor
  · exact (transition_to_follows_table reqEx .ALLOCATED 0).1 (by decide)
  · exact (transition_to_follows_table reqEx .RELEASED 0).2 (by decide)

/-- C8: `release` always yields an available, occupant-less slot and never
errors (it is a total function), release composed with release equals
release, and `occupy` on an unavailable slot yields the
slot-already-occupied error (returning no slot value, i.e. changing
nothing). -/
theorem release_idempotent_occupy_exclusive (s : ParkingSlot) (v : String) :
    s.release.is_available = true ∧
    s.release.current_vehicle = none ∧
    s.release.release = s.release ∧
    (s.is_available = false → s.occupy v = .error (.slotAlreadyOccupied s.slot_id)) := by
  refine ⟨rfl, rfl, rfl, fun h => ?_⟩
  simp [ParkingSlot.occupy, h]

/-- Witness for C8: the occupied slot `slotOccEx` released twice equals it
released once, and occupying it fails. -/
theorem release_idempotent_occupy_exclusive_witness :
    slotOccEx.release.is_available = true ∧
    slotOccEx.release.current_vehicle = none ∧
    slotOccEx.release.release = slotOccEx.release ∧
    slotOccEx.occupy "V2" = .error (.slotAlreadyOccupied "S9") := by
  have h := release_idempotent_occupy_exclusive slotOccEx "V2"
  exact ⟨h.1, h.2.1, h.2.2.1, h.2.2.2 rfl⟩

/-- C9: for a request id absent from the history, `occupy_parking`,
`release_parking` and `cancel_request` all return False without an error and
with the system state untouched, whereas a present request in the wrong
state makes `occupy_parking` raise an invalid-state error. -/
theorem unknown_request_id_noop (sys : ParkingSystem) (rid : String) (now : Nat) :
    (sys.find_request rid = none →
      sys.occupy_parking rid now = .ok (sys, false) ∧
      sys.release_parking rid now = .ok (sys, false) ∧
      sys.cancel_request rid now = .ok (sys, false)) ∧
    (∀ req, sys.find_request rid = some req → req.state ≠ .ALLOCATED →
      sys.occupy_parking rid now = .error (.invalidState rid req.state)) := by
  constructor
  · intro h
    refine ⟨?_, ?_, ?_⟩ <;>
      simp [ParkingSystem.occupy_parking, ParkingSystem.release_parking,
        ParkingSystem.cancel_request, h]
  · intro req h hs
    simp [ParkingSystem.occupy_parking, h, hs]

/-- Witness for C9: on the empty system the three operations return False
for the unknown id R1, and on `sys9` (which holds R1 in state REQUESTED)
`occupy_parking` raises the invalid-state error. -/
theorem unknown_request_id_noop_witness :
    emptySys.occupy_parking "R1" 0 = .ok (emptySys, false) ∧
    emptySys.release_parking "R1" 0 = .ok (emptySys, false) ∧
    emptySys.cancel_request "R1" 0 = .ok (emptySys, false) ∧
    sys9.occupy_parking "R1" 0 = .error (.invalidState "R1" .REQUESTED) := by
  have h1 := (unknown_request_id_noop emptySys "R1" 0).1 (by decide)
  have h2 := (unknown_request_id_noop sys9 "R1" 0).2 reqEx (by decide) (by decide)
  exact ⟨h1.1, h1.2.1, h1.2.2, h2⟩

/-- head?filter relates first-of-filter to find?: the head of the filtered
list is the first element satisfying the predicate. -/
theorem head?filter {α : Type} (p : α → Bool) (l : List α) :
    (l.filter p).head? = l.find? p := by
  induction l with
  | nil => rfl
  | cons a t ih =>
    by_cases h : p a
    · rw [List.filter_cons_of_pos h, List.find?_cons_of_pos _ h]
      rfl
    · rw [List.filter_cons_of_neg h, List.find?_cons_of_neg _ h, ih]

/-- find_slot_in_zone_eq_find characterizes the zone scan: it returns the
first slot id of the zone's slot list (area order, then slot order within
area) whose heap entry is available. -/
theorem find_slot_in_zone_eq_find (slots : List ParkingSlot) (z : Zone) :
    AllocationEngine.find_slot_in_zone slots z =
      z.get_all_slots.find? (slotAvail slots) := by
  unfold AllocationEngine.find_slot_in_zone Zone.get_available_slots
  exact head?filter _ _

/-- scan_adjacent_eq_findSome characterizes the adjacency loop as a
findSome? over the adjacency ids in stored order: ids absent from the
directory contribute nothing and each present zone contributes its first
available slot. -/
theorem scan_adjacent_eq_findSome (slots : List ParkingSlot)
    (zones : List (String × Zone)) (l : List String) :
    AllocationEngine.scan_adjacent slots zones l =
      l.findSome? (fun zid => (assocLookup zid zones).bind
        (fun z => z.get_all_slots.find? (slotAvail slots))) := by
  induction l with
  | nil => rfl
  | cons zid rest ih =>
    rw [List.findSome?_cons]
    unfold AllocationEngine.scan_adjacent
    cases h : assocLookup zid zones with
    | none => simpa using ih
    | some z =>
      dsimp only [Option.bind]
      rw [find_slot_in_zone_eq_find]
      cases h2 : z.get_all_slots.find? (slotAvail slots) with
      | none => simpa using ih
      | some sid => simp

/-- C4: `allocate_parking` returns none when the requested zone id is absent
from the directory; otherwise the first available slot of that zone in
deterministic insertion order tagged cross-zone `false`; otherwise the first
available slot found by walking the requested zone's adjacency list in
stored order (skipping ids absent from the directory, one hop only) tagged
`true`; otherwise none.  The allocator is a pure query: it consumes the
directory and heap and returns only the result. -/
theorem allocate_parking_characterization (request : ParkingRequest)
    (zones : List (String × Zone)) (slots : List ParkingSlot) :
    AllocationEngine.allocate_parking request zones slots =
      match assocLookup request.requested_zone zones with
      | none => none
      | some zone =>
        match zone.get_all_slots.find? (slotAvail slots) with
        | some sid => some (sid, false)
        | none =>
          (zone.adjacent_zones.findSome? (fun zid =>
            (assocLookup zid zones).bind
              (fun az => az.get_all_slots.find? (slotAvail slots)))).map
            (fun sid => (sid, true)) := by
  unfold AllocationEngine.allocate_parking AllocationEngine.find_slot_in_adjacent_zones
  cases h : assocLookup request.requested_zone zones with
  | none => rfl
  | some zone =>
    dsimp only
    rw [find_slot_in_zone_eq_find]
    cases h2 : zone.get_all_slots.find? (slotAvail slots) with
    | some sid => rfl
    | none =>
      rw [scan_adjacent_eq_findSome]
      cases h3 : zone.adjacent_zones.findSome? (fun zid =>
          (assocLookup zid zones).bind
            (fun az => az.get_all_slots.find? (slotAvail slots))) with
      | none => rfl
      | some sid => rfl

/-- mkOp is the record that `record_allocation` builds for one
(request, slot id, timestamp) input. -/
def mkOp (x : ParkingRequest × String × Nat) : RollbackRecord :=
  { request_id := x.1.request_id
    slot_id := x.2.1
    previous_state := x.1.state
    timestamp := x.2.2 }

/-- recordMany folds a sequence of `record_allocation` calls over the
manager, oldest call first. -/
def recordMany (m : RollbackManager) (xs : List (ParkingRequest × String × Nat)) :
    RollbackManager :=
  xs.foldl (fun acc x => acc.record_allocation x.1 x.2.1 x.2.2) m

/-- record_allocation_max: recording preserves the configured bound. -/
theorem record_allocation_max (m : RollbackManager) (r : ParkingRequest)
    (sid : String) (now : Nat) :
    (m.record_allocation r sid now).max_stack_size = m.max_stack_size := rfl

/-- recordMany_max: a sequence of recordings preserves the configured
bound. -/
theorem recordMany_max (xs : List (ParkingRequest × String × Nat)) :
    ∀ m : RollbackManager, (recordMany m xs).max_stack_size = m.max_stack_size := by
  induction xs with
  | nil => intro m; rfl
  | cons x t ih =>
    intro m
    show (recordMany (m.record_allocation x.1 x.2.1 x.2.2) t).max_stack_size = _
    rw [ih, record_allocation_max]

/-- record_allocation_length_le: one recording keeps the stack within the
bound. -/
theorem record_allocation_length_le (m : RollbackManager) (r : ParkingRequest)
    (sid : String) (now : Nat) (h : m.operation_stack.length ≤ m.max_stack_size) :
    (m.record_allocation r sid now).operation_stack.length ≤ m.max_stack_size := by
  unfold RollbackManager.record_allocation
  dsimp only
  split
  · simpa using h
  · rename_i hn
    simp only [List.length_append, List.length_cons, List.length_nil] at hn ⊢
    omega

/-- recordMany_length_le: every sequence of recordings keeps the stack within
the bound, starting from any state within the bound. -/
theorem recordMany_length_le (xs : List (ParkingRequest × String × Nat)) :
    ∀ m : RollbackManager, m.operation_stack.length ≤ m.max_stack_size →
      (recordMany m xs).operation_stack.length ≤ m.max_stack_size := by
  induction xs with
  | nil => intro m h; exact h
  | cons x t ih =>
    intro m h
    show (recordMany (m.record_allocation x.1 x.2.1 x.2.2) t).operation_stack.length ≤ _
    have h2 := ih (m.record_allocation x.1 x.2.1 x.2.2)
      (by rw [record_allocation_max]; exact record_allocation_length_le m x.1 x.2.1 x.2.2 h)
    rwa [record_allocation_max] at h2

/-- recordMany_no_evict: while there is room for the whole sequence, the
recordings simply append in order, no eviction. -/
theorem recordMany_no_evict (xs : List (ParkingRequest × String × Nat)) :
    ∀ m : RollbackManager, m.operation_stack.length + xs.length ≤ m.max_stack_size →
      (recordMany m xs).operation_stack = m.operation_stack ++ xs.map mkOp := by
  induction xs with
  | nil => intro m h; simp [recordMany]
  | cons x t ih =>
    intro m h
    simp only [List.length_cons] at h
    have hstep : (m.record_allocation x.1 x.2.1 x.2.2).operation_stack =
        m.operation_stack ++ [mkOp x] := by
      unfold RollbackManager.record_allocation
      dsimp only
      rw [if_neg (by simp only [List.length_append, List.length_cons, List.length_nil]; omega)]
      rfl
    show (recordMany (m.record_allocation x.1 x.2.1 x.2.2) t).operation_stack = _
    rw [ih (m.record_allocation x.1 x.2.1 x.2.2)
        (by rw [record_allocation_max, hstep]; simp only [List.length_append,
          List.length_cons, List.length_nil]; omega),
      hstep]
    simp

/-- C5: for every sequence of `record_allocation` calls starting from a
fresh manager with bound M, the ledger never holds more than M records; and
a sequence of exactly M+1 recordings leaves exactly the records of the last
M calls — the single (oldest) evicted record is the first one. -/
theorem ledger_bounded_fifo_eviction (M : Nat)
    (xs : List (ParkingRequest × String × Nat)) :
    (recordMany { operation_stack := [], max_stack_size := M } xs).operation_stack.length ≤ M ∧
    (xs.length = M + 1 →
      (recordMany { operation_stack := [], max_stack_size := M } xs).operation_stack =
        (xs.map mkOp).drop 1) := by
  constructor
  · exact recordMany_length_le xs _ (by simp)
  · intro hlen
    rcases List.eq_nil_or_concat xs with hnil | ⟨ys, x, hconcat⟩
    · rw [hnil] at hlen; simp at hlen
    · rw [List.concat_eq_append] at hconcat
      subst hconcat
      have hys : ys.length = M := by
        simp only [List.length_append, List.length_cons, List.length_nil] at hlen
        omega
      have hfold : recordMany { operation_stack := [], max_stack_size := M } (ys ++ [x]) =
          (recordMany { operation_stack := [], max_stack_size := M } ys).record_allocation
            x.1 x.2.1 x.2.2 := by
        unfold recordMany
        rw [List.foldl_append]
        rfl
      have hys2 : (recordMany { operation_stack := [], max_stack_size := M }
          ys).operation_stack = ys.map mkOp :=
        recordMany_no_evict ys _ (by simp [hys])
      rw [hfold]
      unfold RollbackManager.record_allocation
      dsimp only
      rw [recordMany_max ys, hys2]
      rw [if_pos (by simp [hys])]
      simp [mkOp]

/-- c5xs is a concrete two-recording input sequence. -/
def c5xs : List (ParkingRequest × String × Nat) := [(reqEx, "SA", 0), (reqEx, "SB", 1)]

/-- Witness for C5: with bound M=1, two recordings leave exactly the second
record — the first (oldest) was evicted. -/
theorem ledger_bounded_fifo_eviction_witness :
    (recordMany { operation_stack := [], max_stack_size := 1 } c5xs).operation_stack.length ≤ 1 ∧
    (recordMany { operation_stack := [], max_stack_size := 1 } c5xs).operation_stack =
      (c5xs.map mkOp).drop 1 := by
  have h := ledger_bounded_fifo_eviction 1 c5xs
  exact ⟨h.1, h.2 (by decide)⟩

/-- rollbackLoop_succ computes one iteration of the pop loop on a non-empty
stack: the top record moves to the result, its slot is released and its
request restored. -/
theorem rollbackLoop_succ (n : Nat) (rb : List RollbackRecord) (sl : List ParkingSlot)
    (rq : List ParkingRequest) (q : List RollbackRecord) (l : RollbackRecord) :
    rollbackLoop (n + 1) { rolled_back := rb, slots := sl, requests := rq, stack := q ++ [l] } =
      rollbackLoop n
        { rolled_back := rb ++ [l]
          slots := updateSlot sl l.slot_id ParkingSlot.release
          requests := updateRequest rq l.request_id (rollbackRestore l)
          stack := q } := by
  simp only [rollbackLoop, List.getLast?_concat, List.dropLast_concat]

/-- rollbackLoop_spec characterizes n iterations of the pop loop when the
stack holds at least n records: the top n records are appended to the
result most-recent-first and the remaining stack is the untouched bottom
part. -/
theorem rollbackLoop_spec :
    ∀ (n : Nat) (rb : List RollbackRecord) (sl : List ParkingSlot)
      (rq : List ParkingRequest) (stack : List RollbackRecord), n ≤ stack.length →
      ∃ slots2 reqs2,
        rollbackLoop n { rolled_back := rb, slots := sl, requests := rq, stack := stack } =
          { rolled_back := rb ++ (stack.drop (stack.length - n)).reverse
            slots := slots2
            requests := reqs2
            stack := stack.take (stack.length - n) } := by
  intro n
  induction n with
  | zero =>
    intro rb sl rq stack h
    exact ⟨sl, rq, by simp [rollbackLoop]⟩
  | succ n ih =>
    intro rb sl rq stack h
    rcases List.eq_nil_or_concat stack with he | ⟨q, l, he⟩
    · subst he
      simp at h
    · rw [List.concat_eq_append] at he
      subst he
      have hq : n ≤ q.length := by
        simp at h
        omega
      obtain ⟨s2, r2, heq⟩ := ih (rb ++ [l]) (updateSlot sl l.slot_id ParkingSlot.release)
        (updateRequest rq l.request_id (rollbackRestore l)) q hq
      refine ⟨s2, r2, ?_⟩
      rw [rollbackLoop_succ, heq]
      have hlen2 : (q ++ [l]).length = q.length + 1 := by simp
      rw [hlen2]
      have harith : q.length + 1 - (n + 1) = q.length - n := by omega
      rw [harith,
        List.drop_append_of_le_length (by omega),
        List.take_append_of_le_length (by omega),
        List.reverse_concat]
      simp

/-- C6: `rollback_last_k` fails with the invalid-count error for every
k ≤ 0 and with the insufficient-history error for every k exceeding the
current depth — in this functional embedding both failures return no new
state, which is how the Python's raise-before-the-loop leaves ledger, slots
and requests untouched; for every k within the depth it pops exactly the
top k records and returns them in pop order (most-recent-first), leaving
the bottom part of the stack. -/
theorem rollback_last_k_contract (k : Int) (slots : List ParkingSlot)
    (reqs : List ParkingRequest) (m : RollbackManager) :
    (k ≤ 0 → RollbackManager.rollback_last_k k slots reqs m = .error .invalidCount) ∧
    ((m.operation_stack.length : Int) < k →
      RollbackManager.rollback_last_k k slots reqs m =
        .error (.insufficientHistory k m.operation_stack.length)) ∧
    (0 < k → k ≤ (m.operation_stack.length : Int) →
      ∃ st, RollbackManager.rollback_last_k k slots reqs m = .ok st ∧
        st.rolled_back =
          (m.operation_stack.drop (m.operation_stack.length - k.toNat)).reverse ∧
        st.stack = m.operation_stack.take (m.operation_stack.length - k.toNat)) := by
  refine ⟨?_, ?_, ?_⟩
  · intro h
    unfold RollbackManager.rollback_last_k
    rw [if_pos h]
  · intro h
    unfold RollbackManager.rollback_last_k
    rw [if_neg (by omega), if_pos (by omega)]
  · intro h1 h2
    unfold RollbackManager.rollback_last_k
    rw [if_neg (by omega), if_neg (by omega)]
    have hle : k.toNat ≤ m.operation_stack.length := by omega
    obtain ⟨s2, r2, heq⟩ := rollbackLoop_spec k.toNat [] slots reqs m.operation_stack hle
    refine ⟨⟨(m.operation_stack.drop (m.operation_stack.length - k.toNat)).reverse, s2, r2,
      m.operation_stack.take (m.operation_stack.length - k.toNat)⟩, ?_, rfl, rfl⟩
    rw [heq]
    simp

/-- c6opA is the older of two concrete ledger records. -/
def c6opA : RollbackRecord :=
  { request_id := "R1", slot_id := "SA", previous_state := .ALLOCATED, timestamp := 0 }

/-- c6opB is the newer of two concrete ledger records. -/
def c6opB : RollbackRecord :=
  { request_id := "R2", slot_id := "SB", previous_state := .ALLOCATED, timestamp := 1 }

/-- c6mgr is a concrete manager whose stack holds `c6opA` (bottom) and
`c6opB` (top). -/
def c6mgr : RollbackManager :=
  { operation_stack := [c6opA, c6opB], max_stack_size := 100 }

/-- Witness for C6: on a depth-2 ledger, k = 0 raises invalid-count, k = 3
raises insufficient-history, and k = 1 pops exactly the newest record. -/
theorem rollback_last_k_contract_witness :
    RollbackManager.rollback_last_k 0 [] [] c6mgr = .error .invalidCount ∧
    RollbackManager.rollback_last_k 3 [] [] c6mgr = .error (.insufficientHistory 3 2) ∧
    ∃ st, RollbackManager.rollback_last_k 1 [] [] c6mgr = .ok st ∧
      st.rolled_back = [c6opB] ∧ st.stack = [c6opA] := by
  refine ⟨(rollback_last_k_contract 0 [] [] c6mgr).1 (by decide), ?_, ?_⟩
  · exact (rollback_last_k_contract 3 [] [] c6mgr).2.1 (by decide)
  · obtain ⟨st, hok, hroll, hstack⟩ :=
      (rollback_last_k_contract 1 [] [] c6mgr).2.2 (by decide) (by decide)
    refine ⟨st, hok, ?_, ?_⟩
    · rw [hroll]
      rfl
    · rw [hstack]
      rfl

/-- C7: when the request is in state REQUESTED and the allocator finds no
slot, `process_request` returns failure with the request value, the slot
heap and the ledger all returned exactly as given — so the request's state,
`allocated_slot`, `is_cross_zone`, `start_time` and `end_time` are
untouched and nothing was pushed onto the ledger. -/
theorem process_request_notfound_frame (request : ParkingRequest)
    (zones : List (String × Zone)) (slots : List ParkingSlot) (m : RollbackManager)
    (now : Nat) (hstate : request.state = .REQUESTED)
    (halloc : AllocationEngine.allocate_parking request zones slots = none) :
    ParkingSystem.process_request_core request zones slots m now =
      .ok (false, request, slots, m) := by
  unfold ParkingSystem.process_request_core
  rw [if_neg (by simp [hstate]), halloc]

/-- c7mgr is a fresh rollback manager with the default bound. -/
def c7mgr : RollbackManager := { operation_stack := [], max_stack_size := 100 }

/-- Witness for C7: with an empty zone directory the allocator finds
nothing and `process_request` returns failure leaving everything as it
was. -/
theorem process_request_notfound_frame_witness :
    ParkingSystem.process_request_core reqEx [] [] c7mgr 0 =
      .ok (false, reqEx, [], c7mgr) :=
  process_request_notfound_frame reqEx [] [] c7mgr 0 rfl rfl

/-- findSlot_update_release: releasing a slot through its reference leaves
that reference resolving to the released slot. -/
theorem findSlot_update_release (slots : List ParkingSlot) (sid : String) :
    ∀ s : ParkingSlot, findSlot slots sid = some s →
      findSlot (updateSlot slots sid ParkingSlot.release) sid =
        some { s with is_available := true, current_vehicle := none } := by
  induction slots with
  | nil =>
    intro s h
    simp [findSlot] at h
  | cons a t ih =>
    intro s h
    unfold findSlot updateSlot at *
    cases hb : a.slot_id == sid with
    | true =>
      simp only [List.find?_cons, hb, Option.some.injEq] at h
      subst h
      rw [List.map_cons, if_pos hb, List.find?_cons]
      dsimp only [ParkingSlot.release]
      rw [hb]
    | false =>
      simp only [List.find?_cons, hb] at h
      have hb2 : ¬ ((a.slot_id == sid) = true) := by simp [hb]
      rw [List.map_cons, if_neg hb2, List.find?_cons, hb]
      exact ih s h

/-- C10: rolling back one record releases the recorded slot unconditionally:
whatever the slot's current availability and occupant — including a
different vehicle from a later allocation — the popped record's slot ends
available with its occupant cleared; no comparison with the record's
request is made (the slot `s` is universally quantified). -/
theorem rollback_release_unconditional (slots : List ParkingSlot)
    (reqs : List ParkingRequest) (m : RollbackManager) (op : RollbackRecord)
    (rest : List RollbackRecord) (h : m.operation_stack = rest ++ [op]) :
    ∃ st, RollbackManager.rollback_last_k 1 slots reqs m = .ok st ∧
      st.slots = updateSlot slots op.slot_id ParkingSlot.release ∧
      ∀ s, findSlot slots op.slot_id = some s →
        findSlot st.slots op.slot_id =
          some { s with is_available := true, current_vehicle := none } := by
  unfold RollbackManager.rollback_last_k
  rw [if_neg (by omega : ¬ (1 : Int) ≤ 0)]
  have hguard : ¬ ((1 : Int) > (m.operation_stack.length : Int)) := by
    rw [h]
    simp
  rw [if_neg hguard, h]
  have hloop := rollbackLoop_succ 0 [] slots reqs rest op
  refine ⟨⟨[op], updateSlot slots op.slot_id ParkingSlot.release,
    updateRequest reqs op.request_id (rollbackRestore op), rest⟩, ?_, rfl, ?_⟩
  · rw [show ((1 : Int).toNat) = 0 + 1 from rfl, hloop]
    rfl
  · intro s hs
    exact findSlot_update_release slots op.slot_id s hs

/-- c10slot is the recorded slot as it stands at rollback time: occupied by
vehicle V2, not by the recorded request's vehicle. -/
def c10slot : ParkingSlot :=
  { slot_id := "S1", zone_id := "Z1", is_available := false, current_vehicle := some "V2" }

/-- c10op is a ledger record referencing slot S1. -/
def c10op : RollbackRecord :=
  { request_id := "R1", slot_id := "S1", previous_state := .ALLOCATED, timestamp := 0 }

/-- c10mgr is a manager holding exactly the record `c10op`. -/
def c10mgr : RollbackManager := { operation_stack := [c10op], max_stack_size := 100 }

/-- Witness for C10: rolling back the record frees slot S1 even though V2,
not the recorded vehicle, currently occupies it. -/
theorem rollback_release_unconditional_witness :
    ∃ st, RollbackManager.rollback_last_k 1 [c10slot] [] c10mgr = .ok st ∧
      st.slots = updateSlot [c10slot] "S1" ParkingSlot.release ∧
      findSlot st.slots "S1" =
        some { slot_id := "S1", zone_id := "Z1", is_available := true,
               current_vehicle := none } := by
  obtain ⟨st, hok, hsl, hfind⟩ :=
    rollback_release_unconditional [c10slot] [] c10mgr c10op [] rfl
  exact ⟨st, hok, hsl, hfind c10slot rfl⟩

/-! Concrete end-to-end run: one zone with one free slot, one fresh request,
submit then rollback.  Used to evaluate the submit/record/rollback
interplay. -/

/-- slotS1 is the single, free slot of the concrete run. -/
def slotS1 : ParkingSlot :=
  { slot_id := "S1", zone_id := "Z1", is_available := true, current_vehicle := none }

/-- areaA1 is the area holding slot S1. -/
def areaA1 : ParkingArea := { area_id := "A1", zone_id := "Z1", slots := ["S1"] }

/-- zoneZ1 is the zone holding area A1, with no adjacent zones. -/
def zoneZ1 : Zone :=
  { zone_id := "Z1", zone_name := "Zone One", parking_areas := [areaA1], adjacent_zones := [] }

/-- sysA is the initial system of the concrete run: zone Z1, free slot S1,
request R1 (= `reqEx`) in state REQUESTED, empty ledger. -/
def sysA : ParkingSystem :=
  { zones := [("Z1", zoneZ1)], slots := [slotS1]
    rollback_manager := { operation_stack := [], max_stack_size := 100 }
    request_history := [reqEx], request_counter := 1 }

/-- runStep1 is the result of submitting request R1. -/
def runStep1 : Except PyError (ParkingSystem × Bool) := sysA.process_request "R1" 0

/-- sysB is the system after the successful submit. -/
def sysB : ParkingSystem :=
  match runStep1 with
  | .ok (s, _) => s
  | .error _ => sysA

/-- runStep2 is the result of rolling back the last allocation on `sysB`. -/
def runStep2 : Except PyError (List String × ParkingSystem) := sysB.rollback_last_allocations 1

/-- sysC is the system after the rollback. -/
def sysC : ParkingSystem :=
  match runStep2 with
  | .ok (_, s) => s
  | .error _ => sysB

/-- C2 fails on the code: `process_request` transitions the request to
ALLOCATED before calling `record_allocation`
(`parking_system.py` line 89 before line 92), so the record pushed for a
request that was in state REQUESTED stores `previous_state = ALLOCATED`,
not REQUESTED as claimed.  This theorem evaluates the concrete successful
submit and exhibits the stored state. -/
theorem record_previous_state_is_allocated :
    runStep1 = .ok (sysB, true) ∧
    sysB.rollback_manager.operation_stack.map RollbackRecord.previous_state =
      [RequestState.ALLOCATED] ∧
    RequestState.ALLOCATED ≠ RequestState.REQUESTED :=
  ⟨rfl, rfl, by decide⟩

/-- C1 fails on the code: submit then `rollback_last_allocations(1)` does
restore the slot (available, occupant cleared), clear `allocated_slot` and
leave `start_time` cleared, but restores the request's state to the
recorded `previous_state`, which is ALLOCATED (see
`record_previous_state_is_allocated`'s root cause), not REQUESTED as
claimed.  This theorem evaluates the concrete round trip. -/
theorem submit_rollback_roundtrip_state :
    runStep1 = .ok (sysB, true) ∧
    runStep2 = .ok (["R1"], sysC) ∧
    findSlot sysC.slots "S1" = some slotS1 ∧
    sysC.find_request "R1" = some { reqEx with state := .ALLOCATED } ∧
    RequestState.ALLOCATED ≠ RequestState.REQUESTED :=
  ⟨rfl, rfl, rfl, rfl, by decide⟩

end SmartParking
